import Mathlib

/-!
Verification development for the security-analysis platform
(`src/models/entities.py`, `src/engines/entity_recognizer.py`,
`src/engines/connection_expansion.py`, `src/engines/risk_scoring.py`,
`src/engines/response_executor.py`,
`src/services/security_analysis_service.py`).

The Python code is shallowly embedded:

* pure functions become Lean functions over `String`, `ℚ` (Python floats in
  the recognizer / expansion / response layers are only constructed from and
  compared against decimal literals, so they embed as rationals) and `ℝ`
  (the risk-scoring math uses `math.exp` and `math.sqrt`, so it embeds into
  the reals);
* Python dict literals with a fixed key set become structures; the untyped
  `metadata` bag becomes an association list of tagged values where an
  update conses the new binding in front and `lookup` returns the most
  recent one, which is observationally the dict behaviour;
* all I/O (the `re`/`ipaddress`/`json`/`urllib` standard-library calls of
  the recognizer, backend queries, effector execution, the event loop's
  clock and timers) is passed in as explicit oracle arguments, so a
  function of the embedding equals one run of the Python function against
  the backend answers described by those arguments; `asyncio.gather`
  returns its results in task-submission order, which the embedding
  reflects by concatenating / enumerating the per-task answers in the
  order the source builds the task list.
-/

namespace SecPlatform

/-! ## `src/models/entities.py` -/

/-- `EntityType` enum. -/
inductive EntityType
| user
| ip
| file
| process
| device
| domain
| email
| url
deriving DecidableEq, Repr

/-- `EntityType.value` strings. -/
def entity_type_value : EntityType → String
| .user => "user"
| .ip => "ip"
| .file => "file"
| .process => "process"
| .device => "device"
| .domain => "domain"
| .email => "email"
| .url => "url"

/-- `EntityStatus` enum. -/
inductive EntityStatus
| pending
| investigated
| scored
| compromised
| blocked
| bleeding_stop
| whitelisted
deriving DecidableEq, Repr

/-- `EntityStatus.value` strings. -/
def entity_status_value : EntityStatus → String
| .pending => "待调查"
| .investigated => "已调查"
| .scored => "已评分"
| .compromised => "已沦陷"
| .blocked => "已阻断"
| .bleeding_stop => "待止血"
| .whitelisted => "已白名单"

/-- `ThreatLevel` enum. -/
inductive ThreatLevel
| low
| medium
| high
| critical
deriving DecidableEq, Repr

/-- A value stored in the untyped `metadata` dict of an entity. -/
inductive MVal
| s (v : String)
| b (v : Bool)
| num (v : ℚ)
| strs (v : List String)
| null
deriving DecidableEq, Repr

/-- The untyped `metadata` dict: an association list where the most recent
binding for a key is consed in front. -/
def Metadata := List (String × MVal)
deriving DecidableEq, Repr

/-- `metadata.get(key)` (no default): the most recent binding. -/
def mget (m : Metadata) (key : String) : Option MVal :=
  List.lookup key m

/-- `metadata[key] = value`. -/
def mset (m : Metadata) (key : String) (v : MVal) : Metadata :=
  (key, v) :: m

/-- `metadata.get(key, default)` for string-valued keys. -/
def mget_str (m : Metadata) (key : String) (dflt : String) : String :=
  match mget m key with
  | some (MVal.s v) => v
  | _ => dflt

/-- `metadata.get(key)` for optional string-valued keys (`None` when the key
is absent or bound to `None`). -/
def mget_str? (m : Metadata) (key : String) : Option String :=
  match mget m key with
  | some (MVal.s v) => some v
  | _ => none

/-- The `metadata` dict of a connection record as built by
`ConnectionExpansionEngine._establish_connections`. -/
structure ConnMeta where
  expansion_method : Option String
  weight : ℚ
deriving DecidableEq, Repr

/-- A connection record as built by `SecurityEntity.add_connection`. -/
structure Connection where
  target_id : String
  target_type : String
  connection_type : String
  timestamp : Int
  metadata : ConnMeta
deriving DecidableEq, Repr

/-- A `timeline` entry (the dicts appended by `update_status`,
`update_risk_score`, `add_metadata` and
`ResponseOrchestrator._update_entity_status`). -/
inductive TimelineEntry
| status_change (old_status new_status : EntityStatus) (timestamp : Int) (reason : String)
| risk_score_update (old_score new_score : ℚ) (threat_level : ThreatLevel) (timestamp : Int) (reason : String)
| metadata_update (key : String) (value : MVal) (timestamp : Int)
| response_executed (response_actions : List String) (successful_count total_count : Nat) (timestamp : Int)
deriving DecidableEq, Repr

/-- `SecurityEntity` dataclass.  The wall-clock fields `first_seen` /
`last_seen` carry no behaviour in the analysed code paths and are omitted;
`risk_score` is a Python float stored and compared against decimal
literals, embedded as `ℚ`. -/
structure SecurityEntity where
  entity_type : EntityType
  entity_id : String
  status : EntityStatus := .pending
  risk_score : ℚ := 0
  threat_level : ThreatLevel := .low
  connections : List Connection := []
  timeline : List TimelineEntry := []
  metadata : Metadata := []
  confidence : ℚ := 1
deriving DecidableEq, Repr

/-- `SecurityEntity.add_connection` (with the default `timestamp=None`
branch resolved by the caller-supplied clock `now = int(time.time())`). -/
def add_connection (self : SecurityEntity) (target : SecurityEntity)
    (connection_type : String) (now : Int) (metadata : ConnMeta) : SecurityEntity :=
  { self with connections := self.connections ++
      [{ target_id := target.entity_id
         target_type := entity_type_value target.entity_type
         connection_type := connection_type
         timestamp := now
         metadata := metadata }] }

/-- `SecurityEntity.update_status`. -/
def update_status (self : SecurityEntity) (new_status : EntityStatus)
    (reason : String) (now : Int) : SecurityEntity :=
  { self with status := new_status
              timeline := self.timeline ++
                [TimelineEntry.status_change self.status new_status now reason] }

/-- `SecurityEntity.add_metadata`. -/
def add_metadata (self : SecurityEntity) (key : String) (value : MVal)
    (now : Int) : SecurityEntity :=
  { self with metadata := mset self.metadata key value
              timeline := self.timeline ++ [TimelineEntry.metadata_update key value now] }

/-! ## `src/engines/entity_recognizer.py` -/

/-- A log payload.  The analysed extraction paths read fields guarded by
`isinstance(value, str)` (or, for IP fields, validate through
`ipaddress.ip_address`, which rejects the non-string payloads occurring in
this repository), so the payload embeds as a string-valued dict. -/
def Payload := List (String × String)
deriving DecidableEq, Repr

/-- `field in log_data and log_data[field]`. -/
def pget (log_data : Payload) (field : String) : Option String :=
  List.lookup field log_data

/-- The Python standard-library surface used by `EntityRecognizer`, passed
as an oracle: `matches name text` is the list of match strings produced in
order by `compiled_patterns[name].finditer(text)`, `ip_valid` / `ip_private`
embed `ipaddress`, `dumps` embeds `json.dumps`, and `url_netloc` embeds
`urllib.parse.urlparse(url).netloc` (`none` on exception). -/
structure PyLib where
  finditer : String → String → List String
  ip_valid : String → Bool
  ip_private : String → Bool
  dumps : Payload → String
  url_netloc : String → Option String

/-- Python `str.strip` whitespace (ASCII). -/
def py_isspace (c : Char) : Bool :=
  [' ', '\t', '\n', '\r', '\x0b', '\x0c'].contains c

/-- Python `value.strip()`. -/
def py_trim (s : String) : String :=
  String.mk ((s.data.dropWhile py_isspace).reverse.dropWhile py_isspace |>.reverse)

/-- Python `value.lower()` (the analysed values are ASCII). -/
def py_lower (s : String) : String :=
  String.mk (s.data.map Char.toLower)

/-- Python `value.upper()` (the analysed values are ASCII). -/
def py_upper (s : String) : String :=
  String.mk (s.data.map Char.toUpper)

/-- Python `s.startswith(p)`. -/
def py_startswith (s p : String) : Bool :=
  p.data.isPrefixOf s.data

/-- Python `s.endswith(p)`. -/
def py_endswith (s p : String) : Bool :=
  decide (p.data <:+ s.data)

/-- Python `s.split(sep)` for a one-character separator. -/
def split_char (sep : Char) : List Char → List (List Char)
| [] => [[]]
| c :: rest =>
  let r := split_char sep rest
  if c = sep then [] :: r else (c :: r.headD []) :: r.tailD []

/-- The segment of `l` before the first occurrence of `sep`
(Python `s.split(sep)[0]` when `sep in s`). -/
def before_first (sep : List Char) : List Char → List Char
| [] => []
| c :: rest => if sep.isPrefixOf (c :: rest) then [] else c :: before_first sep rest

/-- The key set of `self.compiled_patterns`: all eleven patterns of
`self.patterns` compile without `re.error`. -/
def compiled_pattern_keys : List String :=
  ["ip", "domain", "email", "url", "file_path_windows", "file_path_linux",
   "hash_md5", "hash_sha1", "hash_sha256", "process_name", "username"]

/-- Python's substring test `sub in s`. -/
def str_contains (s sub : String) : Bool :=
  decide (sub.data <:+: s.data)

/-- `Option[str]` metadata values. -/
def opt_str : Option String → MVal
| some v => MVal.s v
| none => MVal.null

/-- `_is_valid_username`. -/
def is_valid_username (username : String) : Bool :=
  if username.length < 2 || username.length > 50 then false
  else !(["null", "undefined", "anonymous", "guest"].contains (py_lower username))

/-- `_is_system_account`. -/
def is_system_account (username : String) : Bool :=
  ["system", "administrator", "root", "admin", "service"].contains (py_lower username)

/-- `_is_valid_file_path` (`path[1:3] == ':\\'`). -/
def is_valid_file_path (path : String) : Bool :=
  if path.length < 3 then false
  else
    py_startswith path "/" ||
      (match path.data with
       | _ :: c1 :: c2 :: _ => c1 == ':' && c2 == '\\'
       | _ => false)

/-- `self.system_paths`, flattened in dict iteration order (windows then
linux). -/
def system_paths : List String :=
  ["C:\\Windows\\System32", "C:\\Windows\\SysWOW64", "C:\\Program Files",
   "C:\\Program Files (x86)",
   "/usr/bin", "/bin", "/sbin", "/usr/sbin", "/lib", "/usr/lib"]

/-- `_is_system_file`. -/
def is_system_file (file_path : String) : Bool :=
  system_paths.any (fun p => py_startswith file_path p)

/-- `_get_file_extension`. -/
def get_file_extension (file_path : String) : Option String :=
  if file_path.data.contains '.' then
    some (py_lower (String.mk ((split_char '.' file_path.data).getLastD [])))
  else none

/-- `_extract_process_name`.  The Python function always returns a string
(possibly empty; the caller treats the empty string as falsy). -/
def extract_process_name (process_info : String) : String :=
  if process_info.data.contains '\\' then
    String.mk ((split_char '\\' process_info.data).getLastD [])
  else if process_info.data.contains '/' then
    String.mk ((split_char '/' process_info.data).getLastD [])
  else process_info

/-- `_is_system_process`. -/
def is_system_process (process_name : String) : Bool :=
  ["svchost.exe", "explorer.exe", "winlogon.exe", "csrss.exe", "lsass.exe",
   "systemd", "kernel"].contains (py_lower process_name)

/-- `_is_valid_domain`. -/
def is_valid_domain (domain : String) : Bool :=
  if domain.length < 4 || domain.length > 255 then false
  else !(str_contains domain ".." || py_startswith domain "." || py_endswith domain ".")

/-- `_get_tld`. -/
def get_tld (domain : String) : Option String :=
  let parts := split_char '.' domain.data
  if parts.length > 1 then some (String.mk (parts.getLastD [])) else none

/-- `_is_valid_email` (Python's `email.split('@')[1]` is the second
segment, guarded by `'@' in email`). -/
def is_valid_email (email : String) : Bool :=
  email.data.contains '@' && ((split_char '@' email.data).getD 1 []).contains '.'

/-- `_is_valid_url`. -/
def is_valid_url (url : String) : Bool :=
  (py_startswith url "http://" || py_startswith url "https://") && url.length > 10

/-- `_is_valid_hash`. -/
def is_valid_hash (hash_value : String) : Bool :=
  ([32, 40, 64].contains hash_value.length) &&
    (py_lower hash_value).data.all (fun c => "0123456789abcdef".data.contains c)

/-- `_determine_hash_type`. -/
def determine_hash_type (hash_value : String) : String :=
  if hash_value.length = 32 then "MD5"
  else if hash_value.length = 40 then "SHA1"
  else if hash_value.length = 64 then "SHA256"
  else "UNKNOWN"

/-- The structured IP entity of `_extract_ip_entities`. -/
def ip_struct_entity (lib : PyLib) (field ip : String) : SecurityEntity :=
  { entity_type := .ip, entity_id := ip,
    metadata := [("field_source", .s field),
                 ("is_private", .b (lib.ip_private ip)),
                 ("direction", .s (if str_contains field "src" || str_contains field "source"
                                   then "source" else "destination"))] }

/-- The free-text IP entity of `_extract_ip_entities`. -/
def ip_text_entity (lib : PyLib) (ip : String) : SecurityEntity :=
  { entity_type := .ip, entity_id := ip,
    metadata := [("field_source", .s "text_extraction"),
                 ("is_private", .b (lib.ip_private ip))] }

/-- The structured-field list of `_extract_ip_entities`. -/
def ip_fields : List String :=
  ["src_ip", "dst_ip", "source_ip", "dest_ip", "remote_ip",
   "client_ip", "server_ip", "host_ip"]

/-- The structured-field loop body of `_extract_ip_entities`. -/
def ip_field_step (lib : PyLib) (log_data : Payload)
    (acc : List SecurityEntity × List String) (field : String) :
    List SecurityEntity × List String :=
  match pget log_data field with
  | none => acc
  | some v =>
    if lib.ip_valid v then
      if acc.2.contains v then acc
      else (acc.1 ++ [ip_struct_entity lib field v], v :: acc.2)
    else acc

/-- The free-text loop body of `_extract_ip_entities`. -/
def ip_text_step (lib : PyLib) (acc : List SecurityEntity × List String)
    (m : String) : List SecurityEntity × List String :=
  if lib.ip_valid m && !acc.2.contains m
  then (acc.1 ++ [ip_text_entity lib m], m :: acc.2) else acc

/-- `_extract_ip_entities`. -/
def extract_ip_entities (lib : PyLib) (log_data : Payload) (log_text : String)
    (vals : List String) : List SecurityEntity × List String :=
  let s1 := ip_fields.foldl (ip_field_step lib log_data) ([], vals)
  let s2 := if compiled_pattern_keys.contains "ip"
            then (lib.finditer "ip" log_text).foldl (ip_text_step lib) ([], s1.2)
            else ([], s1.2)
  (s1.1 ++ s2.1, s2.2)

/-- The structured-field list of `_extract_user_entities`. -/
def user_fields : List String :=
  ["username", "user", "account", "login_name", "user_name",
   "src_user", "dst_user", "target_user"]

/-- The loop body of `_extract_user_entities`. -/
def user_step (log_data : Payload) (acc : List SecurityEntity × List String)
    (field : String) : List SecurityEntity × List String :=
  match pget log_data field with
  | none => acc
  | some v =>
    let username := py_trim v
    if username ≠ "" && !acc.2.contains username && is_valid_username username then
      (acc.1 ++ [{ entity_type := .user, entity_id := username,
                   metadata := [("field_source", .s field),
                                ("is_system_account", .b (is_system_account username))] }],
       username :: acc.2)
    else acc

/-- `_extract_user_entities`. -/
def extract_user_entities (log_data : Payload) (vals : List String) :
    List SecurityEntity × List String :=
  user_fields.foldl (user_step log_data) ([], vals)

/-- The structured-field list of `_extract_file_entities`. -/
def file_fields : List String :=
  ["file_path", "filename", "file_name", "path", "target_filename",
   "process_path", "image_path", "command_line"]

/-- The loop body of `_extract_file_entities` (an invalid path is neither
emitted nor added to the dedup set). -/
def file_step (log_data : Payload) (acc : List SecurityEntity × List String)
    (field : String) : List SecurityEntity × List String :=
  match pget log_data field with
  | none => acc
  | some v =>
    let file_path := py_trim v
    if file_path ≠ "" && !acc.2.contains file_path then
      if is_valid_file_path file_path then
        (acc.1 ++ [{ entity_type := .file, entity_id := file_path,
                     metadata := [("field_source", .s field),
                                  ("is_system_file", .b (is_system_file file_path)),
                                  ("file_extension", opt_str (get_file_extension file_path))] }],
         file_path :: acc.2)
      else acc
    else acc

/-- `_extract_file_entities`. -/
def extract_file_entities (log_data : Payload) (vals : List String) :
    List SecurityEntity × List String :=
  file_fields.foldl (file_step log_data) ([], vals)

/-- The structured-field list of `_extract_process_entities`. -/
def process_fields : List String :=
  ["process_name", "image_name", "command", "process_command_line"]

/-- The loop body of `_extract_process_entities`: the dedup set receives
the raw field value `process_info` while the emitted entity carries the
derived `process_name`. -/
def process_step (log_data : Payload) (acc : List SecurityEntity × List String)
    (field : String) : List SecurityEntity × List String :=
  match pget log_data field with
  | none => acc
  | some v =>
    let process_info := py_trim v
    if process_info ≠ "" && !acc.2.contains process_info then
      let process_name := extract_process_name process_info
      if process_name ≠ "" then
        (acc.1 ++ [{ entity_type := .process, entity_id := process_name,
                     metadata := [("field_source", .s field),
                                  ("full_command",
                                   if field = "process_command_line" then .s process_info else .null),
                                  ("is_system_process", .b (is_system_process process_name))] }],
         process_info :: acc.2)
      else acc
    else acc

/-- `_extract_process_entities`. -/
def extract_process_entities (log_data : Payload) (vals : List String) :
    List SecurityEntity × List String :=
  process_fields.foldl (process_step log_data) ([], vals)

/-- The domain entity of `_extract_domain_entities`. -/
def domain_entity (field domain : String) : SecurityEntity :=
  { entity_type := .domain, entity_id := domain,
    metadata := [("field_source", .s field), ("tld", opt_str (get_tld domain))] }

/-- The structured-field list of `_extract_domain_entities`. -/
def domain_fields : List String :=
  ["domain", "hostname", "dest_domain", "target_domain", "dns_query"]

/-- The structured-field loop body of `_extract_domain_entities`. -/
def domain_field_step (log_data : Payload) (acc : List SecurityEntity × List String)
    (field : String) : List SecurityEntity × List String :=
  match pget log_data field with
  | none => acc
  | some v =>
    let domain := py_lower (py_trim v)
    if domain ≠ "" && !acc.2.contains domain && is_valid_domain domain
    then (acc.1 ++ [domain_entity field domain], domain :: acc.2) else acc

/-- The free-text loop body of `_extract_domain_entities`. -/
def domain_text_step (acc : List SecurityEntity × List String)
    (m : String) : List SecurityEntity × List String :=
  let domain := py_lower m
  if !acc.2.contains domain && is_valid_domain domain
  then (acc.1 ++ [domain_entity "text_extraction" domain], domain :: acc.2) else acc

/-- `_extract_domain_entities`. -/
def extract_domain_entities (lib : PyLib) (log_data : Payload) (log_text : String)
    (vals : List String) : List SecurityEntity × List String :=
  let s1 := domain_fields.foldl (domain_field_step log_data) ([], vals)
  let s2 := if compiled_pattern_keys.contains "domain"
            then (lib.finditer "domain" log_text).foldl domain_text_step ([], s1.2)
            else ([], s1.2)
  (s1.1 ++ s2.1, s2.2)

/-- The email entity of `_extract_email_entities`. -/
def email_entity (field email : String) : SecurityEntity :=
  { entity_type := .email, entity_id := email,
    metadata := [("field_source", .s field),
                 ("domain",
                  if email.data.contains '@'
                  then .s (String.mk ((split_char '@' email.data).getD 1 [])) else .null)] }

/-- The structured-field list of `_extract_email_entities`. -/
def email_fields : List String :=
  ["email", "sender", "recipient", "from_email", "to_email"]

/-- The structured-field loop body of `_extract_email_entities`. -/
def email_field_step (log_data : Payload) (acc : List SecurityEntity × List String)
    (field : String) : List SecurityEntity × List String :=
  match pget log_data field with
  | none => acc
  | some v =>
    let email := py_lower (py_trim v)
    if email ≠ "" && !acc.2.contains email && is_valid_email email
    then (acc.1 ++ [email_entity field email], email :: acc.2) else acc

/-- The free-text loop body of `_extract_email_entities` (no validity
check). -/
def email_text_step (acc : List SecurityEntity × List String)
    (m : String) : List SecurityEntity × List String :=
  let email := py_lower m
  if !acc.2.contains email
  then (acc.1 ++ [email_entity "text_extraction" email], email :: acc.2) else acc

/-- `_extract_email_entities`. -/
def extract_email_entities (lib : PyLib) (log_data : Payload) (log_text : String)
    (vals : List String) : List SecurityEntity × List String :=
  let s1 := email_fields.foldl (email_field_step log_data) ([], vals)
  let s2 := if compiled_pattern_keys.contains "email"
            then (lib.finditer "email" log_text).foldl email_text_step ([], s1.2)
            else ([], s1.2)
  (s1.1 ++ s2.1, s2.2)

/-- The URL entity of `_extract_url_entities`. -/
def url_entity (lib : PyLib) (field url : String) : SecurityEntity :=
  { entity_type := .url, entity_id := url,
    metadata := [("field_source", .s field),
                 ("domain", opt_str (lib.url_netloc url)),
                 ("scheme",
                  if str_contains url "://"
                  then .s (String.mk (before_first "://".data url.data)) else .null)] }

/-- The structured-field list of `_extract_url_entities`. -/
def url_fields : List String :=
  ["url", "uri", "request_url", "referer", "redirect_url"]

/-- The structured-field loop body of `_extract_url_entities`. -/
def url_field_step (lib : PyLib) (log_data : Payload)
    (acc : List SecurityEntity × List String) (field : String) :
    List SecurityEntity × List String :=
  match pget log_data field with
  | none => acc
  | some v =>
    let url := py_trim v
    if url ≠ "" && !acc.2.contains url && is_valid_url url
    then (acc.1 ++ [url_entity lib field url], url :: acc.2) else acc

/-- The free-text loop body of `_extract_url_entities` (no validity
check). -/
def url_text_step (lib : PyLib) (acc : List SecurityEntity × List String)
    (m : String) : List SecurityEntity × List String :=
  if !acc.2.contains m
  then (acc.1 ++ [url_entity lib "text_extraction" m], m :: acc.2) else acc

/-- `_extract_url_entities`. -/
def extract_url_entities (lib : PyLib) (log_data : Payload) (log_text : String)
    (vals : List String) : List SecurityEntity × List String :=
  let s1 := url_fields.foldl (url_field_step lib log_data) ([], vals)
  let s2 := if compiled_pattern_keys.contains "url"
            then (lib.finditer "url" log_text).foldl (url_text_step lib) ([], s1.2)
            else ([], s1.2)
  (s1.1 ++ s2.1, s2.2)

/-- The structured-field list of `_extract_hash_entities`. -/
def hash_fields : List String :=
  ["md5", "sha1", "sha256", "file_hash", "hash"]

/-- The structured-field loop body of `_extract_hash_entities`. -/
def hash_field_step (log_data : Payload) (acc : List SecurityEntity × List String)
    (field : String) : List SecurityEntity × List String :=
  match pget log_data field with
  | none => acc
  | some v =>
    let hash_value := py_lower (py_trim v)
    if hash_value ≠ "" && !acc.2.contains hash_value && is_valid_hash hash_value then
      (acc.1 ++ [{ entity_type := .file, entity_id := hash_value,
                   metadata := [("field_source", .s field),
                                ("hash_type", .s (determine_hash_type hash_value)),
                                ("is_hash", .b true)] }],
       hash_value :: acc.2)
    else acc

/-- The free-text loop body of `_extract_hash_entities` for one hash kind
`ht` (reached only under the `if hash_type in self.compiled_patterns`
guard). -/
def hash_text_step (ht : String) (acc : List SecurityEntity × List String)
    (m : String) : List SecurityEntity × List String :=
  let hash_value := py_lower m
  if !acc.2.contains hash_value then
    (acc.1 ++ [{ entity_type := .file, entity_id := hash_value,
                 metadata := [("field_source", .s "text_extraction"),
                              ("hash_type", .s (py_upper ht)),
                              ("is_hash", .b true)] }],
     hash_value :: acc.2)
  else acc

/-- `_extract_hash_entities`.  The free-text loop iterates
`['md5', 'sha1', 'sha256']` but guards each pattern with
`if hash_type in self.compiled_patterns`, i.e. it tests the bare name
against the key set whose hash keys are `hash_md5` / `hash_sha1` /
`hash_sha256`, exactly as in the source. -/
def extract_hash_entities (lib : PyLib) (log_data : Payload) (log_text : String)
    (vals : List String) : List SecurityEntity × List String :=
  let s1 := hash_fields.foldl (hash_field_step log_data) ([], vals)
  let s2 := ["md5", "sha1", "sha256"].foldl
    (fun (acc : List SecurityEntity × List String) (ht : String) =>
      if compiled_pattern_keys.contains ht
      then (lib.finditer ("hash_" ++ ht) log_text).foldl (hash_text_step ht) acc
      else acc)
    ([], s1.2)
  (s1.1 ++ s2.1, s2.2)

/-- `EntityRecognizer.extract_entities`: the eight extractors run in order
over one shared `extracted_values` set (starting empty), their entity lists
are concatenated in order, and every entity is then stamped with
`source_event_id` (when an event id was supplied) and
`extraction_timestamp`. -/
def extract_entities (lib : PyLib) (log_data : Payload) (event_id : Option String)
    (extraction_ts : String) (now : Int) : List SecurityEntity :=
  let log_text := lib.dumps log_data
  let r1 := extract_ip_entities lib log_data log_text []
  let r2 := extract_user_entities log_data r1.2
  let r3 := extract_file_entities log_data r2.2
  let r4 := extract_process_entities log_data r3.2
  let r5 := extract_domain_entities lib log_data log_text r4.2
  let r6 := extract_email_entities lib log_data log_text r5.2
  let r7 := extract_url_entities lib log_data log_text r6.2
  let r8 := extract_hash_entities lib log_data log_text r7.2
  let entities := r1.1 ++ r2.1 ++ r3.1 ++ r4.1 ++ r5.1 ++ r6.1 ++ r7.1 ++ r8.1
  entities.map (fun e =>
    let e1 := match event_id with
      | some eid => add_metadata e "source_event_id" (.s eid) now
      | none => e
    add_metadata e1 "extraction_timestamp" (.s extraction_ts) now)

/-! ## `src/engines/connection_expansion.py`

The four expansion methods (`_expand_by_asset_relationship`,
`_expand_by_threat_intel`, `_expand_by_baseline_anomaly`,
`_expand_by_temporal_correlation`) are pure fan-outs to the Neo4j /
threat-intel / ClickHouse backends; their answers enter the embedding as
the four oracle lists `asset_res`, `ti_res`, `ba_res`, `tc_res` — the
entity lists those methods return for the given backend state.
`expand_entity_connections` builds its task list in exactly this order and
`asyncio.gather` yields the results in task order, so the merge step
concatenates the four lists in this fixed order regardless of which
backend answers first. -/

/-- `self.relationship_weights`. -/
def relationship_weights : List (String × ℚ) :=
  [("COMMUNICATES_WITH", 0.8), ("BELONGS_TO", 0.9), ("USED_BY", 0.7),
   ("ACCESSES", 0.6), ("EXECUTES", 0.8), ("CREATES", 0.7), ("MODIFIES", 0.6),
   ("THREAT_INTEL_RELATED", 0.9), ("ANOMALY_RELATED", 0.7)]

/-- `self.relationship_weights.get(relationship_type, 0.5)`. -/
def relationship_weight (relationship_type : String) : ℚ :=
  (List.lookup relationship_type relationship_weights).getD 0.5

/-- `entity.metadata.get('relationship_type', 'RELATED_TO')`. -/
def relationship_type_of (e : SecurityEntity) : String :=
  mget_str e.metadata "relationship_type" "RELATED_TO"

/-- `entity.metadata.get('expansion_source')`. -/
def expansion_source_of (e : SecurityEntity) : Option String :=
  mget_str? e.metadata "expansion_source"

/-- `_deduplicate_entities`, with the `seen` set made explicit. -/
def deduplicate_entities_go (seen : List (EntityType × String)) :
    List SecurityEntity → List SecurityEntity
| [] => []
| e :: rest =>
  if (e.entity_type, e.entity_id) ∈ seen then deduplicate_entities_go seen rest
  else e :: deduplicate_entities_go ((e.entity_type, e.entity_id) :: seen) rest

/-- `_deduplicate_entities`: keep the first occurrence of each
`(entity_type, entity_id)` pair. -/
def deduplicate_entities (entities : List SecurityEntity) : List SecurityEntity :=
  deduplicate_entities_go [] entities

/-- `entity.metadata.get('confidence', entity.confidence)` (the source only
ever stores numeric values under `'confidence'`). -/
def effective_confidence (e : SecurityEntity) : ℚ :=
  match mget e.metadata "confidence" with
  | some (MVal.num q) => q
  | _ => e.confidence

/-- `_filter_by_confidence`: drop entities below
`min_confidence_threshold = 0.3`, then truncate to
`max_entities_per_expansion = 50`. -/
def filter_by_confidence (entities : List SecurityEntity) : List SecurityEntity :=
  (entities.filter (fun e => (0.3 : ℚ) ≤ effective_confidence e)).take 50

/-- The connection metadata dict built (twice, with identical contents) in
`_establish_connections`. -/
def expansion_conn_meta (target : SecurityEntity) : ConnMeta :=
  { expansion_method := expansion_source_of target
    weight := relationship_weight (relationship_type_of target) }

/-- The forward edge `source → target` appended by
`_establish_connections`. -/
def forward_edge (target : SecurityEntity) (now : Int) : Connection :=
  { target_id := target.entity_id
    target_type := entity_type_value target.entity_type
    connection_type := relationship_type_of target
    timestamp := now
    metadata := expansion_conn_meta target }

/-- The symmetric `REVERSE_`-prefixed edge `target → source` appended by
`_establish_connections`. -/
def reverse_edge (source target : SecurityEntity) (now : Int) : Connection :=
  { target_id := source.entity_id
    target_type := entity_type_value source.entity_type
    connection_type := "REVERSE_" ++ relationship_type_of target
    timestamp := now
    metadata := expansion_conn_meta target }

/-- `_establish_connections`: for each expanded entity, append the forward
edge on the source and the `REVERSE_` edge on the target (returning the
mutated source and targets). -/
def establish_connections (source : SecurityEntity)
    (expanded : List SecurityEntity) (now : Int) :
    SecurityEntity × List SecurityEntity :=
  ({ source with connections := source.connections ++ expanded.map (forward_edge · now) },
   expanded.map (fun t =>
     { t with connections := t.connections ++ [reverse_edge source t now] }))

/-- `expand_entity_connections` with the default method list
`['asset_relationship', 'threat_intel', 'baseline_anomaly',
'temporal_correlation']`: merge the four method results in task order,
deduplicate, filter by confidence, wire the bidirectional edges, and mark
the source entity `INVESTIGATED`.  Returns the mutated source together
with the returned `expanded_entities` list. -/
def expand_entity_connections (source : SecurityEntity)
    (asset_res ti_res ba_res tc_res : List SecurityEntity) (now : Int) :
    SecurityEntity × List SecurityEntity :=
  let merged := asset_res ++ ti_res ++ ba_res ++ tc_res
  let expanded := filter_by_confidence (deduplicate_entities merged)
  let wired := establish_connections source expanded now
  (update_status wired.1 .investigated "完成连接扩充" now, wired.2)

/-! ## `src/engines/risk_scoring.py`

The scoring math (`math.exp`, divisions) embeds into `ℝ`.  Indicator
extraction (`_extract_single_point_indicators`) is async and may consult
the threat-intel / ML services, so the indicator dict enters
`_calculate_single_point_risk` as an explicit argument `indicators`, the
insertion-ordered list of `(name, value)` pairs; likewise the awaited
value of `_calculate_multi_point_risk` enters `calculate_entity_risk_score`
as the oracle `multi_point_oracle`. -/

/-- `self.single_point_weights`. -/
noncomputable def single_point_weights : List (String × ℝ) :=
  [("threat_intel_match", 0.35), ("anomaly_behavior", 0.25),
   ("privilege_escalation", 0.20), ("suspicious_file", 0.10),
   ("malicious_domain", 0.30), ("blacklist_match", 0.40),
   ("vulnerability_exploit", 0.25), ("lateral_movement", 0.20),
   ("data_exfiltration", 0.30), ("brute_force", 0.15)]

/-- `self.single_point_weights.get(indicator, 0.1)`. -/
noncomputable def single_point_weight (indicator : String) : ℝ :=
  (List.lookup indicator single_point_weights).getD 0.1

/-- `self.entity_base_scores` (every `EntityType` has an entry, so the
`.get(entity_type, 10.0)` default is unreachable). -/
noncomputable def entity_base_scores : EntityType → ℝ
| .ip => 20
| .user => 15
| .file => 25
| .process => 20
| .device => 10
| .domain => 30
| .email => 15
| .url => 25

/-- `_calculate_single_point_risk`. -/
noncomputable def calculate_single_point_risk (entity_type : EntityType)
    (indicators : List (String × ℝ)) : ℝ :=
  let base_score := entity_base_scores entity_type
  let weighted_score := (indicators.map (fun p => single_point_weight p.1 * p.2 * 100)).sum
  let total_weight := (indicators.map (fun p => single_point_weight p.1)).sum
  let final_score :=
    if 0 < total_weight then base_score + (weighted_score / total_weight) * 0.8
    else base_score
  let normalized_score := 100 / (1 + Real.exp (-(final_score - 50) / 20))
  min (max normalized_score 0) 100

/-- `_combine_scores`. -/
noncomputable def combine_scores (single_point_score multi_point_score : ℝ) : ℝ :=
  if multi_point_score = 0 then single_point_score
  else min (max (single_point_score * 0.4 + multi_point_score * 0.6) 0) 100

/-- `calculate_entity_risk_score`: the multi-point score is computed only
when `context_entities` is a non-empty list, otherwise it stays `0.0`;
`multi_point_oracle` is the awaited value of
`_calculate_multi_point_risk([entity] + context_entities)`. -/
noncomputable def calculate_entity_risk_score (entity_type : EntityType)
    (indicators : List (String × ℝ)) (context_entities : List SecurityEntity)
    (multi_point_oracle : ℝ) : ℝ :=
  let single_point_score := calculate_single_point_risk entity_type indicators
  let multi_point_score := if context_entities ≠ [] then multi_point_oracle else 0
  combine_scores single_point_score multi_point_score

/-- The reference single-point score exactly as the specification's §4.3.1
states it: logistic-normalised weighted average when at least one
indicator is present, and the bare base score — with no logistic — when no
indicator fired. -/
noncomputable def claimed_single_point_score (entity_type : EntityType)
    (indicators : List (String × ℝ)) : ℝ :=
  if indicators = [] then entity_base_scores entity_type
  else
    let raw := entity_base_scores entity_type +
      0.8 * ((indicators.map (fun p => single_point_weight p.1 * p.2 * 100)).sum /
             (indicators.map (fun p => single_point_weight p.1)).sum)
    min (max (100 / (1 + Real.exp (-(raw - 50) / 20))) 0) 100

/-- The amended reference single-point score: as §4.3.1, except that the
logistic normalisation and clamp are applied to the raw score in the
no-indicator case as well. -/
noncomputable def amended_single_point_score (entity_type : EntityType)
    (indicators : List (String × ℝ)) : ℝ :=
  let raw :=
    if indicators = [] then entity_base_scores entity_type
    else entity_base_scores entity_type +
      0.8 * ((indicators.map (fun p => single_point_weight p.1 * p.2 * 100)).sum /
             (indicators.map (fun p => single_point_weight p.1)).sum)
  min (max (100 / (1 + Real.exp (-(raw - 50) / 20))) 0) 100

/-! ## `src/engines/response_executor.py` -/

/-- `ResponseAction` enum. -/
inductive ResponseAction
| block_ip
| unblock_ip
| isolate_host
| disable_user
| enable_user
| reset_password
| revoke_token
| quarantine_file
| delete_file
| restore_file
| kill_process
| suspend_process
| send_alert
| create_ticket
| notify_admin
| collect_evidence
| take_snapshot
| dump_memory
deriving DecidableEq, Repr

/-- `ResponseAction.value` strings. -/
def action_value : ResponseAction → String
| .block_ip => "block_ip"
| .unblock_ip => "unblock_ip"
| .isolate_host => "isolate_host"
| .disable_user => "disable_user"
| .enable_user => "enable_user"
| .reset_password => "reset_password"
| .revoke_token => "revoke_token"
| .quarantine_file => "quarantine_file"
| .delete_file => "delete_file"
| .restore_file => "restore_file"
| .kill_process => "kill_process"
| .suspend_process => "suspend_process"
| .send_alert => "send_alert"
| .create_ticket => "create_ticket"
| .notify_admin => "notify_admin"
| .collect_evidence => "collect_evidence"
| .take_snapshot => "take_snapshot"
| .dump_memory => "dump_memory"

/-- `ResponseStatus` enum. -/
inductive ResponseStatus
| pending
| executing
| success
| failed
| timeout
| cancelled
deriving DecidableEq, Repr

/-- `ResponseStatus.value` strings. -/
def response_status_value : ResponseStatus → String
| .pending => "待执行"
| .executing => "执行中"
| .success => "执行成功"
| .failed => "执行失败"
| .timeout => "执行超时"
| .cancelled => "已取消"

/-- `self.response_policies` in insertion order. -/
def response_policies : List (ℚ × List ResponseAction) :=
  [(30, [.send_alert]),
   (50, [.send_alert, .collect_evidence]),
   (70, [.send_alert, .create_ticket, .collect_evidence]),
   (85, [.block_ip, .send_alert, .create_ticket, .notify_admin]),
   (95, [.block_ip, .disable_user, .isolate_host, .send_alert, .create_ticket,
         .notify_admin, .collect_evidence])]

/-- `sorted(self.response_policies.keys(), reverse=True)`. -/
def response_policy_thresholds_desc : List ℚ := [95, 85, 70, 50, 30]

/-- `_determine_actions`, iterating the descending threshold list and
returning `self.response_policies[threshold]` at the first
`risk_score >= threshold`. -/
def determine_actions_go : List ℚ → ℚ → List ResponseAction
| [], _ => []
| t :: rest, risk_score =>
  if t ≤ risk_score then (List.lookup t response_policies).getD []
  else determine_actions_go rest risk_score

/-- `_determine_actions`. -/
def determine_actions (risk_score : ℚ) : List ResponseAction :=
  determine_actions_go response_policy_thresholds_desc risk_score

/-- `self.action_priorities.get(x, 10)`. -/
def action_priority : ResponseAction → ℕ
| .block_ip => 1
| .isolate_host => 1
| .disable_user => 2
| .kill_process => 2
| .quarantine_file => 3
| .send_alert => 4
| .create_ticket => 5
| .notify_admin => 5
| .collect_evidence => 6
| _ => 10

/-- The four concrete executor classes registered in
`ResponseOrchestrator.__init__`, in registry order. -/
inductive ExecutorKind
| firewall
| active_directory
| edr
| alert
deriving DecidableEq, Repr

/-- `executor_id` strings. -/
def executor_id : ExecutorKind → String
| .firewall => "firewall"
| .active_directory => "active_directory"
| .edr => "edr"
| .alert => "alert"

/-- The four `can_handle` implementations. -/
def can_handle (x : ExecutorKind) (entity : SecurityEntity) (action : ResponseAction) : Bool :=
  match x with
  | .firewall =>
    entity.entity_type = EntityType.ip &&
      [ResponseAction.block_ip, .unblock_ip].contains action
  | .active_directory =>
    entity.entity_type = EntityType.user &&
      [ResponseAction.disable_user, .enable_user, .reset_password, .revoke_token].contains action
  | .edr =>
    match entity.entity_type with
    | .device => [ResponseAction.isolate_host, .take_snapshot, .dump_memory].contains action
    | .file => [ResponseAction.quarantine_file, .delete_file, .restore_file].contains action
    | .process => [ResponseAction.kill_process, .suspend_process].contains action
    | _ => false
  | .alert =>
    [ResponseAction.send_alert, .create_ticket, .notify_admin, .collect_evidence].contains action

/-- `self.executors` in registry order. -/
def executors : List ExecutorKind := [.firewall, .active_directory, .edr, .alert]

/-- `_find_executor`: the first registered executor whose `can_handle`
returns true. -/
def find_executor (entity : SecurityEntity) (action : ResponseAction) : Option ExecutorKind :=
  executors.find? (fun x => can_handle x entity action)

/-- One entry of the `results` list of `execute_response`
(`execution_time`, measured from the wall clock, is not modelled; the
record timestamps come from the supplied clock `now`). -/
structure ActionResult where
  action : String
  status : String
  message : String
  executor : Option String := none
  timestamp : Int
deriving DecidableEq, Repr

/-- `_execute_single_action`, with `executor.execute(entity, action)`
supplied by the effector oracle `exec_oracle` as its `(success, message)`
pair (every concrete executor catches its own exceptions and returns such
a pair). -/
def execute_single_action (exec_oracle : ExecutorKind → SecurityEntity → ResponseAction → Bool × String)
    (entity : SecurityEntity) (action : ResponseAction) (ex : ExecutorKind)
    (now : Int) : ActionResult :=
  let r := exec_oracle ex entity action
  { action := action_value action
    status := if r.1 then response_status_value .success else response_status_value .failed
    message := r.2
    executor := some (executor_id ex)
    timestamp := now }

/-- `_update_entity_status`. -/
def update_entity_status (entity : SecurityEntity) (results : List ActionResult)
    (now : Int) : SecurityEntity :=
  let successful_actions := results.filter (fun r => r.status = response_status_value .success)
  if successful_actions = [] then entity
  else
    let action_values := successful_actions.map (·.action)
    let e1 :=
      if action_values.contains (action_value .block_ip) then
        update_status entity .blocked "IP已被阻断" now
      else if action_values.contains (action_value .disable_user) then
        update_status entity .bleeding_stop "用户已被禁用，执行止血操作" now
      else if action_values.contains (action_value .quarantine_file) then
        update_status entity .blocked "文件已被隔离" now
      else if action_values.contains (action_value .isolate_host) then
        update_status entity .blocked "主机已被隔离" now
      else update_status entity .investigated "已执行响应动作" now
    { e1 with timeline := e1.timeline ++
        [TimelineEntry.response_executed action_values successful_actions.length results.length now] }

/-- `execute_response`.  A non-empty `custom_actions` list overrides the
policy lookup (Python's `if custom_actions:` treats `None` and `[]`
alike); actions sort stably by priority; for each sorted action the first
claiming executor runs (as a task whose result `asyncio.gather` returns in
task order), and an action no executor claims is recorded immediately as a
failed result, so the `results` list is the no-executor failures in sorted
order followed by the executed-task results in sorted order.  Finally
`_update_entity_status` runs on the results. -/
def execute_response (exec_oracle : ExecutorKind → SecurityEntity → ResponseAction → Bool × String)
    (entity : SecurityEntity) (custom_actions : Option (List ResponseAction))
    (now : Int) : SecurityEntity × List ActionResult :=
  let actions := match custom_actions with
    | some (c :: cs) => c :: cs
    | _ => determine_actions entity.risk_score
  if actions = [] then (entity, [])
  else
    let sorted_actions := actions.insertionSort (fun a b => action_priority a ≤ action_priority b)
    let no_executor_results := (sorted_actions.filter (fun a => (find_executor entity a).isNone)).map
      (fun a => { action := action_value a
                  status := response_status_value .failed
                  message := "No suitable executor found"
                  timestamp := now : ActionResult })
    let task_results := sorted_actions.filterMap
      (fun a => (find_executor entity a).map
        (fun ex => execute_single_action exec_oracle entity a ex now))
    let results := no_executor_results ++ task_results
    (update_entity_status entity results now, results)

/-! ## `src/services/security_analysis_service.py` -/

/-- One element of the list `batch_analyze_events` returns: a passthrough
of an `analyze_security_event` result, the error record built for an
exception result of `asyncio.gather(..., return_exceptions=True)`, or the
batch-level timeout record. -/
inductive BatchEntry (α : Type)
| ok (r : α)
| error_item (event_index : Nat) (error_message : String) (timestamp : String)
| timeout_item (message : String)
deriving DecidableEq, Repr

/-- `batch_analyze_events`.  The per-event outcomes (result of, or
exception raised by, `analyze_security_event` for each payload, in payload
order — `asyncio.gather` keeps task order) enter as `outcomes`; the oracle
`timed_out` tells whether the `processing_timeout` deadline of
`asyncio.wait_for` fired, in which case the whole call returns the single
batch-level timeout record. -/
def batch_analyze_events {α : Type} (outcomes : List (Except String α))
    (timed_out : Bool) (now_iso : String) : List (BatchEntry α) :=
  if timed_out then [BatchEntry.timeout_item "Batch processing timed out"]
  else outcomes.enum.map (fun p =>
    match p.2 with
    | Except.ok r => BatchEntry.ok r
    | Except.error m => BatchEntry.error_item p.1 m now_iso)

/-! ## Recognizer dedup bookkeeping

Every extractor of `extract_entities` shares one `extracted_values` set.
For each emitted entity other than a process entity, the value added to
the set is the emitted `entity_id` itself (the process extractor adds the
raw field value while emitting the derived process name). -/

/-- The ids of the non-process entities of a list. -/
def np_ids (es : List SecurityEntity) : List String :=
  (es.filter (fun e => e.entity_type ≠ EntityType.process)).map (fun e => e.entity_id)

/-- Shape of each per-candidate step of the extractors: leave the state
unchanged, or emit one entity while adding one key not yet in the dedup
set — the key being the emitted `entity_id` unless the entity is a
process entity. -/
def EmitStep {β : Type} (step : (List SecurityEntity × List String) → β →
    (List SecurityEntity × List String)) : Prop :=
  ∀ es vals b, step (es, vals) b = (es, vals) ∨
    ∃ e k, k ∉ vals ∧ step (es, vals) b = (es ++ [e], k :: vals) ∧
      (e.entity_type ≠ EntityType.process → e.entity_id = k)

/-- Behaviour of an extractor as a function of the incoming dedup set: the
set only grows, the emitted non-process ids are pairwise distinct, and
each of them enters the outgoing set while being absent from the incoming
one. -/
def ExtractorOK (f : List String → List SecurityEntity × List String) : Prop :=
  ∀ vals, (∀ s ∈ vals, s ∈ (f vals).2) ∧
    (np_ids (f vals).1).Nodup ∧
    ∀ i ∈ np_ids (f vals).1, i ∈ (f vals).2 ∧ i ∉ vals

/-- Sequencing of extractors over the shared dedup set, concatenating
their emitted lists — the shape of the `extract_entities` body. -/
def run_extractors : List (List String → List SecurityEntity × List String) →
    List String → List SecurityEntity × List String
| [], vals => ([], vals)
| f :: fs, vals =>
  let a := f vals
  let b := run_extractors fs a.2
  (a.1 ++ b.1, b.2)

/-! ## Lemmas: risk scoring -/

theorem single_point_weight_ge (indicator : String) :
    (0.1 : ℝ) ≤ single_point_weight indicator := by
  simp only [single_point_weight, single_point_weights, List.lookup]
  repeat' split
  all_goals simp_all
  all_goals norm_num

theorem total_weight_pos {indicators : List (String × ℝ)} (h : indicators ≠ []) :
    0 < (indicators.map (fun p => single_point_weight p.1)).sum := by
  rcases indicators with _ | ⟨p, rest⟩
  · exact absurd rfl h
  · have h1 := single_point_weight_ge p.1
    have h2 : 0 ≤ (rest.map (fun p => single_point_weight p.1)).sum := by
      apply List.sum_nonneg
      intro x hx
      rcases List.mem_map.1 hx with ⟨q, _, rfl⟩
      linarith [single_point_weight_ge q.1]
    simp only [List.map_cons, List.sum_cons]
    linarith

theorem exp_three_halves_gt_four : (4 : ℝ) < Real.exp (3 / 2) := by
  have h1 : (2.7182818283 : ℝ) < Real.exp 1 := Real.exp_one_gt_d9
  have h2 : (1.5 : ℝ) ≤ Real.exp 0.5 := by
    have := Real.add_one_le_exp (0.5 : ℝ)
    linarith
  have h3 : Real.exp (3 / 2) = Real.exp 1 * Real.exp 0.5 := by
    rw [← Real.exp_add]; norm_num
  nlinarith [Real.exp_pos (0.5 : ℝ), Real.exp_pos (1 : ℝ)]

/-- C1 (amended).  `_calculate_single_point_risk` equals the §4.3.1
reference computation amended so that the logistic normalisation and the
clamp to `[0, 100]` are applied in the no-indicator case as well: the raw
score is the base score plus 80 % of the weighted indicator average when
at least one indicator is present, and the bare base score otherwise, and
in both cases the result is `min(max(100 / (1 + exp(-(raw - 50) / 20)),
0), 100)`. -/
theorem C1_single_point_risk (entity_type : EntityType)
    (indicators : List (String × ℝ)) :
    calculate_single_point_risk entity_type indicators =
      amended_single_point_score entity_type indicators := by
  unfold calculate_single_point_risk amended_single_point_score
  rcases eq_or_ne indicators [] with h | h
  · subst h; simp
  · have hw := total_weight_pos h
    have harith :
        entity_base_scores entity_type +
          ((indicators.map (fun p => single_point_weight p.1 * p.2 * 100)).sum /
            (indicators.map (fun p => single_point_weight p.1)).sum) * 0.8 =
        entity_base_scores entity_type +
          0.8 * ((indicators.map (fun p => single_point_weight p.1 * p.2 * 100)).sum /
            (indicators.map (fun p => single_point_weight p.1)).sum) := by
      ring
    simp only [if_pos hw, if_neg h, harith]

/-- C1 (counterexample).  On an IP entity with an empty indicator map the
code does not return the base score `20`: the logistic is applied to the
base score as well, yielding `100 / (1 + exp(1.5)) < 20`. -/
theorem C1_counterexample :
    calculate_single_point_risk EntityType.ip [] ≠
      claimed_single_point_score EntityType.ip [] := by
  unfold calculate_single_point_risk claimed_single_point_score entity_base_scores
  simp only [List.map_nil, List.sum_nil, lt_irrefl, if_false, if_pos rfl, if_neg, reduceIte]
  have harg : -((20 : ℝ) - 50) / 20 = 3 / 2 := by norm_num
  rw [harg]
  have h4 := exp_three_halves_gt_four
  have hpos : (0 : ℝ) < 100 / (1 + Real.exp (3 / 2)) := by positivity
  have hlt : (100 : ℝ) / (1 + Real.exp (3 / 2)) < 20 := by
    rw [div_lt_iff₀ (by positivity)]
    nlinarith
  rw [max_eq_left hpos.le, min_eq_left (by linarith)]
  exact ne_of_lt hlt

/-- C7.  `_combine_scores` returns the single-point score unchanged when
the multi-point score is `0`, and otherwise `0.4 · single + 0.6 · multi`
clamped to `[0, 100]`; and `calculate_entity_risk_score` with no context
entities (no neighbours, e.g. because every backend returned empty) equals
the single-point score alone and is non-negative. -/
theorem C7_combine_scores :
    (∀ s : ℝ, combine_scores s 0 = s) ∧
    (∀ s m : ℝ, m ≠ 0 →
      combine_scores s m = min (max (0.4 * s + 0.6 * m) 0) 100) ∧
    (∀ (et : EntityType) (ind : List (String × ℝ)) (mo : ℝ),
      calculate_entity_risk_score et ind [] mo = calculate_single_point_risk et ind ∧
      0 ≤ calculate_entity_risk_score et ind [] mo) := by
  refine ⟨fun s => by simp [combine_scores], fun s m hm => ?_, fun et ind mo => ?_⟩
  · have harith : s * 0.4 + m * 0.6 = 0.4 * s + 0.6 * m := by ring
    simp [combine_scores, hm, harith]
  · have hempty : calculate_entity_risk_score et ind [] mo =
        calculate_single_point_risk et ind := by
      simp [calculate_entity_risk_score, combine_scores]
    refine ⟨hempty, ?_⟩
    rw [hempty]
    unfold calculate_single_point_risk
    exact le_min (le_max_right _ _) (by norm_num)

/-- C7 (witness): the combination rule and the empty-context reduction at
concrete inputs. -/
theorem C7_combine_scores_witness :
    combine_scores 10 50 = min (max (0.4 * 10 + 0.6 * 50) 0) 100 ∧
    calculate_entity_risk_score EntityType.ip [] [] 0 =
      calculate_single_point_risk EntityType.ip [] :=
  ⟨C7_combine_scores.2.1 10 50 (by norm_num),
   (C7_combine_scores.2.2 EntityType.ip [] 0).1⟩

/-- C4.  `_determine_actions` selects the action list of the highest policy
threshold that is `≤` the risk score (the comparison is inclusive, so a
score exactly equal to a threshold selects that threshold's list), and a
score below 30 selects the empty action list. -/
theorem C4_determine_actions (s : ℚ) :
    determine_actions s =
      if 95 ≤ s then [.block_ip, .disable_user, .isolate_host, .send_alert, .create_ticket,
                      .notify_admin, .collect_evidence]
      else if 85 ≤ s then [.block_ip, .send_alert, .create_ticket, .notify_admin]
      else if 70 ≤ s then [.send_alert, .create_ticket, .collect_evidence]
      else if 50 ≤ s then [.send_alert, .collect_evidence]
      else if 30 ≤ s then [.send_alert]
      else [] := by
  simp only [determine_actions, determine_actions_go, response_policy_thresholds_desc,
    response_policies, List.lookup]
  norm_num [show ((95:ℚ) == 30) = false from by decide, show ((95:ℚ) == 50) = false from by decide,
    show ((95:ℚ) == 70) = false from by decide, show ((95:ℚ) == 85) = false from by decide,
    show ((85:ℚ) == 30) = false from by decide, show ((85:ℚ) == 50) = false from by decide,
    show ((85:ℚ) == 70) = false from by decide, show ((70:ℚ) == 30) = false from by decide,
    show ((70:ℚ) == 50) = false from by decide, show ((50:ℚ) == 30) = false from by decide]

/-- C3 (counterexample).  When the batch deadline fires,
`batch_analyze_events` does not return one result per input payload: with
two payloads it returns the single batch-level timeout record. -/
theorem C3_counterexample :
    (batch_analyze_events (α := Unit) [Except.ok (), Except.ok ()] true "t").length ≠ 2 := by
  decide

/-- C3 (amended).  When the batch deadline does not fire,
`batch_analyze_events` returns exactly one result per input payload, in
input order — the per-event result for a normally returning
`analyze_security_event` call and an index-stamped error record for a
raising one; when the `processing_timeout` deadline fires, the whole call
instead returns the single batch-level timeout record. -/
theorem C3_batch_shape {α : Type} (outcomes : List (Except String α)) (now_iso : String) :
    (batch_analyze_events outcomes false now_iso).length = outcomes.length ∧
    (∀ i : ℕ, (batch_analyze_events outcomes false now_iso)[i]? =
      (outcomes[i]?).map (fun o =>
        match o with
        | Except.ok r => BatchEntry.ok r
        | Except.error m => BatchEntry.error_item i m now_iso)) ∧
    batch_analyze_events outcomes true now_iso =
      [BatchEntry.timeout_item "Batch processing timed out"] := by
  refine ⟨?_, ?_, by simp [batch_analyze_events]⟩
  · simp [batch_analyze_events]
  · intro i
    simp only [batch_analyze_events, if_neg (by simp : ¬ (false = true))]
    rw [List.getElem?_map]
    rcases h : outcomes[i]? with _ | o
    · simp [List.getElem?_enum, h]
    · simp [List.getElem?_enum, h]

/-! ## Lemmas: response orchestration -/

theorem length_filter_isNone_add_filterMap {α β γ : Type} (h? : α → Option γ) (g : α → γ → β) :
    ∀ l : List α, (l.filter (fun a => (h? a).isNone)).length +
      (l.filterMap (fun a => (h? a).map (g a))).length = l.length := by
  intro l
  induction l with
  | nil => simp
  | cons a t ih =>
    rcases hh : h? a with _ | c <;>
      simp [List.filter_cons, List.filterMap_cons, hh] <;> omega

theorem find?_first {α : Type} (p : α → Bool) :
    ∀ {l : List α} {x : α}, l.find? p = some x →
      p x = true ∧ ∃ pre post, l = pre ++ x :: post ∧ ∀ y ∈ pre, p y = false := by
  intro l
  induction l with
  | nil => intro x h; simp at h
  | cons a t ih =>
    intro x h
    rcases hpa : p a with _ | _
    · rw [List.find?_cons_of_neg _ (by simp [hpa])] at h
      obtain ⟨h1, pre, post, hl, hpre⟩ := ih h
      exact ⟨h1, a :: pre, post, by rw [hl]; simp, by
        intro y hy
        rcases List.mem_cons.1 hy with rfl | hy2
        · exact hpa
        · exact hpre y hy2⟩
    · rw [List.find?_cons_of_pos _ hpa] at h
      obtain rfl := Option.some_injective _ h
      exact ⟨hpa, [], t, rfl, by simp⟩

theorem execute_response_results_eq
    (exec_oracle : ExecutorKind → SecurityEntity → ResponseAction → Bool × String)
    (entity : SecurityEntity) (c : ResponseAction) (cs : List ResponseAction) (now : Int) :
    (execute_response exec_oracle entity (some (c :: cs)) now).2 =
      (((c :: cs).insertionSort (fun a b => action_priority a ≤ action_priority b)).filter
        (fun a => (find_executor entity a).isNone)).map
        (fun a => { action := action_value a, status := response_status_value .failed,
                    message := "No suitable executor found", timestamp := now : ActionResult }) ++
      ((c :: cs).insertionSort (fun a b => action_priority a ≤ action_priority b)).filterMap
        (fun a => (find_executor entity a).map
          (fun ex => execute_single_action exec_oracle entity a ex now)) := by
  simp [execute_response]

/-- C6.  After the results of a response run settle, if at least one action
succeeded, `_update_entity_status` sets the entity status by first match
over the successful-action names — `block_ip → Blocked`, else
`disable_user → BleedingStop`, else `quarantine_file → Blocked`, else
`isolate_host → Blocked`, otherwise `Investigated` — in particular a
successful `block_ip` always yields `Blocked` and a successful
`disable_user` (without a successful `block_ip`) yields `BleedingStop`;
and exactly one `response_executed` timeline entry is appended, recording
the successful-action names, the success count and the total count. -/
theorem C6_update_entity_status (entity : SecurityEntity) (results : List ActionResult)
    (now : Int) (successful : List ActionResult) (vals : List String)
    (hs : successful = results.filter (fun r => r.status = response_status_value .success))
    (hv : vals = successful.map (fun r => r.action))
    (h : successful ≠ []) :
    ((update_entity_status entity results now).status =
      (if vals.contains "block_ip" then EntityStatus.blocked
       else if vals.contains "disable_user" then EntityStatus.bleeding_stop
       else if vals.contains "quarantine_file" then EntityStatus.blocked
       else if vals.contains "isolate_host" then EntityStatus.blocked
       else EntityStatus.investigated)) ∧
    (vals.contains "block_ip" = true →
      (update_entity_status entity results now).status = EntityStatus.blocked) ∧
    (vals.contains "disable_user" = true ∧ vals.contains "block_ip" = false →
      (update_entity_status entity results now).status = EntityStatus.bleeding_stop) ∧
    (∃ reason : String, (update_entity_status entity results now).timeline =
      entity.timeline ++
        [TimelineEntry.status_change entity.status
          (update_entity_status entity results now).status now reason,
         TimelineEntry.response_executed vals successful.length results.length now]) := by
  subst hs
  subst hv
  unfold update_entity_status
  rw [if_neg h]
  simp only [action_value]
  split_ifs with h1 h2 h3 h4
  · exact ⟨by simp [update_status], fun _ => by simp [update_status],
      fun hc => by rw [hc.2] at h1; exact absurd h1 (by simp),
      ⟨"IP已被阻断", by simp [update_status, List.append_assoc]⟩⟩
  · exact ⟨by simp [update_status], fun hb => absurd hb h1,
      fun _ => by simp [update_status],
      ⟨"用户已被禁用，执行止血操作", by simp [update_status, List.append_assoc]⟩⟩
  · exact ⟨by simp [update_status], fun hb => absurd hb h1, fun hc => absurd hc.1 h2,
      ⟨"文件已被隔离", by simp [update_status, List.append_assoc]⟩⟩
  · exact ⟨by simp [update_status], fun hb => absurd hb h1, fun hc => absurd hc.1 h2,
      ⟨"主机已被隔离", by simp [update_status, List.append_assoc]⟩⟩
  · exact ⟨by simp [update_status], fun hb => absurd hb h1, fun hc => absurd hc.1 h2,
      ⟨"已执行响应动作", by simp [update_status, List.append_assoc]⟩⟩

/-- C6 (witness): a successful `block_ip` result leaves the entity
`Blocked`. -/
theorem C6_update_entity_status_witness :
    (update_entity_status { entity_type := EntityType.ip, entity_id := "203.0.113.9" }
      [{ action := "block_ip", status := "执行成功", message := "ok",
         executor := some "firewall", timestamp := 0 }] 0).status = EntityStatus.blocked := by
  have h := C6_update_entity_status
    { entity_type := EntityType.ip, entity_id := "203.0.113.9" }
    [{ action := "block_ip", status := "执行成功", message := "ok",
       executor := some "firewall", timestamp := 0 }] 0
    [{ action := "block_ip", status := "执行成功", message := "ok",
       executor := some "firewall", timestamp := 0 }] ["block_ip"]
    (by decide) (by decide) (by decide)
  exact h.2.1 (by decide)

/-- C9.  For every selected action, dispatch picks the first executor in
registry order whose `can_handle(entity, action)` is true; an action no
executor claims is recorded as a failed result with message
`'No suitable executor found'`, and every other selected action still
produces its own result (one result per selected action). -/
theorem C9_dispatch
    (exec_oracle : ExecutorKind → SecurityEntity → ResponseAction → Bool × String)
    (entity : SecurityEntity) (actions : List ResponseAction) (now : Int)
    (hne : actions ≠ []) :
    ((execute_response exec_oracle entity (some actions) now).2.length = actions.length) ∧
    (∀ a ∈ actions, find_executor entity a = none →
      ({ action := action_value a, status := response_status_value .failed,
         message := "No suitable executor found", executor := none,
         timestamp := now } : ActionResult) ∈
        (execute_response exec_oracle entity (some actions) now).2) ∧
    (∀ a ∈ actions, ∀ ex, find_executor entity a = some ex →
      execute_single_action exec_oracle entity a ex now ∈
        (execute_response exec_oracle entity (some actions) now).2) ∧
    (∀ a : ResponseAction, ∀ ex, find_executor entity a = some ex →
      can_handle ex entity a = true ∧
      ∃ pre post, executors = pre ++ ex :: post ∧ ∀ y ∈ pre, can_handle y entity a = false) := by
  rcases actions with _ | ⟨c, cs⟩
  · exact absurd rfl hne
  rw [execute_response_results_eq]
  refine ⟨?_, ?_, ?_, ?_⟩
  · rw [List.length_append, List.length_map]
    rw [length_filter_isNone_add_filterMap (find_executor entity)
      (fun a ex => execute_single_action exec_oracle entity a ex now)]
    exact List.length_insertionSort _ _
  · intro a ha hnone
    apply List.mem_append_left
    apply List.mem_map.2
    refine ⟨a, ?_, rfl⟩
    apply List.mem_filter.2
    exact ⟨(List.mem_insertionSort _).2 ha, by simp [hnone]⟩
  · intro a ha ex hex
    apply List.mem_append_right
    apply List.mem_filterMap.2
    exact ⟨a, (List.mem_insertionSort _).2 ha, by rw [hex]; rfl⟩
  · intro a ex hex
    exact find?_first (fun x => can_handle x entity a) (l := executors) hex

/-- C9 (witness): manual `reset_password` on a device entity — no executor
claims the pair, so a failed `'No suitable executor found'` result is
recorded. -/
theorem C9_dispatch_witness :
    ({ action := action_value .reset_password, status := response_status_value .failed,
       message := "No suitable executor found", executor := none,
       timestamp := 0 } : ActionResult) ∈
      (execute_response (fun _ _ _ => (true, "ok"))
        { entity_type := EntityType.device, entity_id := "some.host" }
        (some [ResponseAction.reset_password]) 0).2 := by
  have h := C9_dispatch (fun _ _ _ => (true, "ok"))
    { entity_type := EntityType.device, entity_id := "some.host" }
    [ResponseAction.reset_password] 0 (by simp)
  exact h.2.1 ResponseAction.reset_password (by simp) (by decide)

/-! ## Lemmas: recognizer deduplication -/

theorem np_ids_append (a b : List SecurityEntity) :
    np_ids (a ++ b) = np_ids a ++ np_ids b := by
  simp [np_ids, List.filter_append]

theorem np_ids_cons (e : SecurityEntity) (l : List SecurityEntity) :
    np_ids (e :: l) =
      if e.entity_type = EntityType.process then np_ids l
      else e.entity_id :: np_ids l := by
  simp only [np_ids, List.filter_cons]
  by_cases hp : e.entity_type = EntityType.process
  · simp [hp]
  · simp [hp]

theorem foldl_emit {β : Type}
    {step : (List SecurityEntity × List String) → β → (List SecurityEntity × List String)}
    (hstep : EmitStep step) :
    ∀ (l : List β) (es : List SecurityEntity) (vals : List String),
      (∀ s ∈ vals, s ∈ (l.foldl step (es, vals)).2) ∧
      ∃ new, (l.foldl step (es, vals)).1 = es ++ new ∧
        (np_ids new).Nodup ∧
        ∀ i ∈ np_ids new, i ∈ (l.foldl step (es, vals)).2 ∧ i ∉ vals := by
  intro l
  induction l with
  | nil =>
    intro es vals
    refine ⟨fun s hs => hs, [], by simp, by simp [np_ids], ?_⟩
    intro i hi
    simp [np_ids] at hi
  | cons b t ih =>
    intro es vals
    simp only [List.foldl_cons]
    rcases hstep es vals b with h | ⟨e, k, hk, h, hnp⟩
    · rw [h]; exact ih es vals
    · rw [h]
      obtain ⟨hmono, new, h1, h2, h3⟩ := ih (es ++ [e]) (k :: vals)
      refine ⟨fun s hs => hmono s (by simp [hs]), e :: new, by rw [h1]; simp, ?_, ?_⟩
      · by_cases hp : e.entity_type ≠ EntityType.process
        · have hke : np_ids (e :: new) = k :: np_ids new := by
            simp [np_ids, List.filter_cons, hp, hnp hp]
          rw [hke]
          refine List.Nodup.cons ?_ h2
          intro hkmem
          exact (h3 k hkmem).2 (by simp)
        · have hke : np_ids (e :: new) = np_ids new := by
            simp [np_ids, List.filter_cons, hp]
          rw [hke]; exact h2
      · intro i hi
        by_cases hp : e.entity_type ≠ EntityType.process
        · rw [show (e :: new) = [e] ++ new from rfl, np_ids_append] at hi
          rcases List.mem_append.1 hi with hi | hi
          · have : i = k := by
              simp [np_ids, hp, hnp hp] at hi
              exact hi
            subst this
            exact ⟨hmono i (by simp), hk⟩
          · exact ⟨(h3 i hi).1, fun hv => (h3 i hi).2 (by simp [hv])⟩
        · have hke : np_ids (e :: new) = np_ids new := by
            simp [np_ids, List.filter_cons, hp]
          rw [hke] at hi
          exact ⟨(h3 i hi).1, fun hv => (h3 i hi).2 (by simp [hv])⟩

theorem fold_extractor_ok {β : Type} (l : List β)
    (step : (List SecurityEntity × List String) → β → (List SecurityEntity × List String))
    (hstep : EmitStep step) :
    ExtractorOK (fun vals => l.foldl step ([], vals)) := by
  intro vals
  obtain ⟨hmono, new, h1, h2, h3⟩ := foldl_emit hstep l [] vals
  rw [List.nil_append] at h1
  exact ⟨hmono, by rw [h1]; exact h2, by rw [h1]; exact h3⟩

theorem compose_extractor_ok {f g : List String → List SecurityEntity × List String}
    (hf : ExtractorOK f) (hg : ExtractorOK g) :
    ExtractorOK (fun vals => ((f vals).1 ++ (g (f vals).2).1, (g (f vals).2).2)) := by
  intro vals
  obtain ⟨hf1, hf2, hf3⟩ := hf vals
  obtain ⟨hg1, hg2, hg3⟩ := hg (f vals).2
  refine ⟨fun s hs => hg1 s (hf1 s hs), ?_, ?_⟩
  · rw [np_ids_append]
    refine List.Nodup.append hf2 hg2 ?_
    intro i hif hig
    exact (hg3 i hig).2 (hf3 i hif).1
  · intro i hi
    rw [np_ids_append, List.mem_append] at hi
    rcases hi with hi | hi
    · exact ⟨hg1 i (hf3 i hi).1, (hf3 i hi).2⟩
    · exact ⟨(hg3 i hi).1, fun hin => (hg3 i hi).2 (hf1 i hin)⟩

theorem run_extractors_ok :
    ∀ {fs : List (List String → List SecurityEntity × List String)},
      (∀ f ∈ fs, ExtractorOK f) → ExtractorOK (run_extractors fs) := by
  intro fs
  induction fs with
  | nil =>
    intro _ vals
    refine ⟨fun s hs => hs, by simp [run_extractors, np_ids], ?_⟩
    intro i hi
    simp [run_extractors, np_ids] at hi
  | cons f fs ih =>
    intro h
    have hf := h f (by simp)
    have hfs := ih (fun g hg => h g (by simp [hg]))
    exact compose_extractor_ok hf hfs

theorem ip_field_step_emit (lib : PyLib) (log_data : Payload) :
    EmitStep (ip_field_step lib log_data) := by
  intro es vals b
  unfold ip_field_step
  rcases hb : pget log_data b with _ | v
  · left; rfl
  · dsimp only
    split_ifs with h1 h2
    · left; rfl
    · right
      refine ⟨_, v, ?_, rfl, fun _ => rfl⟩
      simpa using h2
    · left; rfl

theorem ip_text_step_emit (lib : PyLib) : EmitStep (ip_text_step lib) := by
  intro es vals b
  unfold ip_text_step
  dsimp only
  split_ifs with h1
  · right
    refine ⟨_, b, ?_, rfl, fun _ => rfl⟩
    simp only [Bool.and_eq_true, Bool.not_eq_true] at h1
    simpa using h1.2
  · left; rfl

theorem user_step_emit (log_data : Payload) : EmitStep (user_step log_data) := by
  intro es vals b
  unfold user_step
  rcases hb : pget log_data b with _ | v
  · left; rfl
  · dsimp only
    split_ifs with h1
    · right
      refine ⟨_, py_trim v, ?_, rfl, fun _ => rfl⟩
      simp only [Bool.and_eq_true, Bool.not_eq_true] at h1
      simpa using h1.1.2
    · left; rfl

theorem file_step_emit (log_data : Payload) : EmitStep (file_step log_data) := by
  intro es vals b
  unfold file_step
  rcases hb : pget log_data b with _ | v
  · left; rfl
  · dsimp only
    split_ifs with h1 h2
    · right
      refine ⟨_, py_trim v, ?_, rfl, fun _ => rfl⟩
      simp only [Bool.and_eq_true, Bool.not_eq_true] at h1
      simpa using h1.2
    · left; rfl
    · left; rfl

theorem process_step_emit (log_data : Payload) : EmitStep (process_step log_data) := by
  intro es vals b
  unfold process_step
  rcases hb : pget log_data b with _ | v
  · left; rfl
  · dsimp only
    split_ifs with h1 h2 h3
    · right
      refine ⟨_, py_trim v, ?_, rfl, fun hp => absurd rfl hp⟩
      simp only [Bool.and_eq_true, Bool.not_eq_true] at h1
      simpa using h1.2
    · right
      refine ⟨_, py_trim v, ?_, rfl, fun hp => absurd rfl hp⟩
      simp only [Bool.and_eq_true, Bool.not_eq_true] at h1
      simpa using h1.2
    · left; rfl
    · left; rfl

theorem domain_field_step_emit (log_data : Payload) :
    EmitStep (domain_field_step log_data) := by
  intro es vals b
  unfold domain_field_step
  rcases hb : pget log_data b with _ | v
  · left; rfl
  · dsimp only
    split_ifs with h1
    · right
      refine ⟨_, py_lower (py_trim v), ?_, rfl, fun _ => rfl⟩
      simp only [Bool.and_eq_true, Bool.not_eq_true] at h1
      simpa using h1.1.2
    · left; rfl

theorem domain_text_step_emit : EmitStep domain_text_step := by
  intro es vals b
  unfold domain_text_step
  dsimp only
  split_ifs with h1
  · right
    refine ⟨_, py_lower b, ?_, rfl, fun _ => rfl⟩
    simp only [Bool.and_eq_true, Bool.not_eq_true] at h1
    simpa using h1.1
  · left; rfl

theorem email_field_step_emit (log_data : Payload) :
    EmitStep (email_field_step log_data) := by
  intro es vals b
  unfold email_field_step
  rcases hb : pget log_data b with _ | v
  · left; rfl
  · dsimp only
    split_ifs with h1
    · right
      refine ⟨_, py_lower (py_trim v), ?_, rfl, fun _ => rfl⟩
      simp only [Bool.and_eq_true, Bool.not_eq_true] at h1
      simpa using h1.1.2
    · left; rfl

theorem email_text_step_emit : EmitStep email_text_step := by
  intro es vals b
  unfold email_text_step
  dsimp only
  split_ifs with h1
  · right
    refine ⟨_, py_lower b, ?_, rfl, fun _ => rfl⟩
    simpa using h1
  · left; rfl

theorem url_field_step_emit (lib : PyLib) (log_data : Payload) :
    EmitStep (url_field_step lib log_data) := by
  intro es vals b
  unfold url_field_step
  rcases hb : pget log_data b with _ | v
  · left; rfl
  · dsimp only
    split_ifs with h1
    · right
      refine ⟨_, py_trim v, ?_, rfl, fun _ => rfl⟩
      simp only [Bool.and_eq_true, Bool.not_eq_true] at h1
      simpa using h1.1.2
    · left; rfl

theorem url_text_step_emit (lib : PyLib) : EmitStep (url_text_step lib) := by
  intro es vals b
  unfold url_text_step
  dsimp only
  split_ifs with h1
  · right
    refine ⟨_, b, ?_, rfl, fun _ => rfl⟩
    simpa using h1
  · left; rfl

theorem hash_field_step_emit (log_data : Payload) :
    EmitStep (hash_field_step log_data) := by
  intro es vals b
  unfold hash_field_step
  rcases hb : pget log_data b with _ | v
  · left; rfl
  · dsimp only
    split_ifs with h1
    · right
      refine ⟨_, py_lower (py_trim v), ?_, rfl, fun _ => rfl⟩
      simp only [Bool.and_eq_true, Bool.not_eq_true] at h1
      simpa using h1.1.2
    · left; rfl

theorem extract_ip_ok (lib : PyLib) (log_data : Payload) (log_text : String) :
    ExtractorOK (extract_ip_entities lib log_data log_text) :=
  compose_extractor_ok
    (fold_extractor_ok ip_fields _ (ip_field_step_emit lib log_data))
    (fold_extractor_ok (lib.finditer "ip" log_text) _ (ip_text_step_emit lib))

theorem extract_user_ok (log_data : Payload) :
    ExtractorOK (extract_user_entities log_data) :=
  fold_extractor_ok user_fields _ (user_step_emit log_data)

theorem extract_file_ok (log_data : Payload) :
    ExtractorOK (extract_file_entities log_data) :=
  fold_extractor_ok file_fields _ (file_step_emit log_data)

theorem extract_process_ok (log_data : Payload) :
    ExtractorOK (extract_process_entities log_data) :=
  fold_extractor_ok process_fields _ (process_step_emit log_data)

theorem extract_domain_ok (lib : PyLib) (log_data : Payload) (log_text : String) :
    ExtractorOK (extract_domain_entities lib log_data log_text) :=
  compose_extractor_ok
    (fold_extractor_ok domain_fields _ (domain_field_step_emit log_data))
    (fold_extractor_ok (lib.finditer "domain" log_text) _ domain_text_step_emit)

theorem extract_email_ok (lib : PyLib) (log_data : Payload) (log_text : String) :
    ExtractorOK (extract_email_entities lib log_data log_text) :=
  compose_extractor_ok
    (fold_extractor_ok email_fields _ (email_field_step_emit log_data))
    (fold_extractor_ok (lib.finditer "email" log_text) _ email_text_step_emit)

theorem extract_url_ok (lib : PyLib) (log_data : Payload) (log_text : String) :
    ExtractorOK (extract_url_entities lib log_data log_text) :=
  compose_extractor_ok
    (fold_extractor_ok url_fields _ (url_field_step_emit lib log_data))
    (fold_extractor_ok (lib.finditer "url" log_text) _ (url_text_step_emit lib))

theorem extract_hash_ok (lib : PyLib) (log_data : Payload) (log_text : String) :
    ExtractorOK (extract_hash_entities lib log_data log_text) := by
  have hid : ExtractorOK (fun v : List String => (([] : List SecurityEntity), v)) := by
    intro vals
    refine ⟨fun s hs => hs, by simp [np_ids], ?_⟩
    intro i hi
    simp [np_ids] at hi
  exact compose_extractor_ok
    (fold_extractor_ok hash_fields _ (hash_field_step_emit log_data)) hid

theorem np_ids_map_preserve (f : SecurityEntity → SecurityEntity)
    (hty : ∀ x, (f x).entity_type = x.entity_type)
    (hid : ∀ x, (f x).entity_id = x.entity_id) :
    ∀ L, np_ids (L.map f) = np_ids L := by
  intro L
  induction L with
  | nil => rfl
  | cons e t ih => rw [List.map_cons, np_ids_cons, np_ids_cons, hty e, hid e, ih]

theorem np_ids_stamp (event_id : Option String) (ts : String) (now : Int)
    (L : List SecurityEntity) :
    np_ids (L.map (fun e =>
      let e1 := match event_id with
        | some eid => add_metadata e "source_event_id" (.s eid) now
        | none => e
      add_metadata e1 "extraction_timestamp" (.s ts) now)) = np_ids L := by
  apply np_ids_map_preserve
  · intro x; rcases event_id <;> rfl
  · intro x; rcases event_id <;> rfl

theorem extract_entities_eq (lib : PyLib) (log_data : Payload)
    (event_id : Option String) (ts : String) (now : Int) :
    extract_entities lib log_data event_id ts now =
      ((run_extractors
        [extract_ip_entities lib log_data (lib.dumps log_data),
         extract_user_entities log_data,
         extract_file_entities log_data,
         extract_process_entities log_data,
         extract_domain_entities lib log_data (lib.dumps log_data),
         extract_email_entities lib log_data (lib.dumps log_data),
         extract_url_entities lib log_data (lib.dumps log_data),
         extract_hash_entities lib log_data (lib.dumps log_data)] []).1).map
        (fun e =>
          let e1 := match event_id with
            | some eid => add_metadata e "source_event_id" (.s eid) now
            | none => e
          add_metadata e1 "extraction_timestamp" (.s ts) now) := by
  simp [extract_entities, run_extractors]

/-- C2 (amended).  The recognizer deduplicates on the raw extracted value
in one `extracted_values` set shared by all eight extractors — the first
occurrence of a value wins regardless of entity type, so a canonical value
appearing under two different entity types yields a single entity (of the
first extractor's type), and in particular any two emitted non-process
entities (of equal or different types) have distinct ids.  Only the
process extractor can emit duplicate `(entityType, entityID)` pairs,
because it adds the raw field value to the set while emitting the derived
process name. -/
theorem C2_recognizer_dedup (lib : PyLib) (log_data : Payload)
    (event_id : Option String) (ts : String) (now : Int) :
    (((extract_entities lib log_data event_id ts now).filter
        (fun e => e.entity_type ≠ EntityType.process)).map
      (fun e => e.entity_id)).Nodup := by
  have hok : ExtractorOK (run_extractors
      [extract_ip_entities lib log_data (lib.dumps log_data),
       extract_user_entities log_data,
       extract_file_entities log_data,
       extract_process_entities log_data,
       extract_domain_entities lib log_data (lib.dumps log_data),
       extract_email_entities lib log_data (lib.dumps log_data),
       extract_url_entities lib log_data (lib.dumps log_data),
       extract_hash_entities lib log_data (lib.dumps log_data)]) := by
    apply run_extractors_ok
    intro f hf
    simp only [List.mem_cons, List.not_mem_nil, or_false] at hf
    rcases hf with rfl | rfl | rfl | rfl | rfl | rfl | rfl | rfl
    · exact extract_ip_ok lib log_data (lib.dumps log_data)
    · exact extract_user_ok log_data
    · exact extract_file_ok log_data
    · exact extract_process_ok log_data
    · exact extract_domain_ok lib log_data (lib.dumps log_data)
    · exact extract_email_ok lib log_data (lib.dumps log_data)
    · exact extract_url_ok lib log_data (lib.dumps log_data)
    · exact extract_hash_ok lib log_data (lib.dumps log_data)
  obtain ⟨_, hnodup, _⟩ := hok []
  show (np_ids (extract_entities lib log_data event_id ts now)).Nodup
  rw [extract_entities_eq, np_ids_stamp]
  exact hnodup

/-- C2 (counterexample).  On the payload
`{'process_name': 'bad', 'command': '/usr/bad'}` the recognizer emits the
pair `(Process, "bad")` twice: the process extractor dedups on the raw
field values `'bad'` and `'/usr/bad'` but emits the derived process name
`'bad'` for both.  (On this payload's flattened text
`{"process_name": "bad", "command": "/usr/bad"}` none of the free-text
regexes match, so the constant-empty `finditer` oracle below agrees with
`re`.) -/
theorem C2_counterexample :
    ¬ (((extract_entities
        { finditer := fun _ _ => [], ip_valid := fun _ => false,
          ip_private := fun _ => false,
          dumps := fun _ => "\x7b\"process_name\": \"bad\", \"command\": \"/usr/bad\"\x7d",
          url_netloc := fun _ => none }
        [("process_name", "bad"), ("command", "/usr/bad")] none "ts" 0).map
      (fun e => (e.entity_type, e.entity_id))).Nodup) := by
  decide

/-- C8 (code bug).  The hex string `d41d8cd98f00b204e9800998ecf8427e` is a
valid 32-hex hash and occurs in the payload's flattened textual form, no
structured hash field is present — yet `extract_entities` emits no entity
at all: the free-text hash loop of `_extract_hash_entities` guards each
pattern with `if hash_type in self.compiled_patterns` for
`hash_type ∈ {'md5', 'sha1', 'sha256'}`, while the compiled-pattern keys
are `hash_md5` / `hash_sha1` / `hash_sha256`, so the guard is always false
and the pass is dead code.  (On this flattened text none of the ip /
domain / email / url regexes match, so the constant-empty `finditer`
oracle agrees with `re`.) -/
theorem C8_free_text_hash_dead :
    compiled_pattern_keys.contains "md5" = false ∧
    compiled_pattern_keys.contains "sha1" = false ∧
    compiled_pattern_keys.contains "sha256" = false ∧
    is_valid_hash "d41d8cd98f00b204e9800998ecf8427e" = true ∧
    str_contains "\x7b\"message\": \"d41d8cd98f00b204e9800998ecf8427e\"\x7d"
      "d41d8cd98f00b204e9800998ecf8427e" = true ∧
    extract_entities
      { finditer := fun _ _ => [], ip_valid := fun _ => false, ip_private := fun _ => false,
        dumps := fun _ => "\x7b\"message\": \"d41d8cd98f00b204e9800998ecf8427e\"\x7d",
        url_netloc := fun _ => none }
      [("message", "d41d8cd98f00b204e9800998ecf8427e")] none "ts" 0 = [] := by
  refine ⟨by decide, by decide, by decide, by decide, by decide, by decide⟩

theorem dedup_keys_nodup :
    ∀ (l : List SecurityEntity) (seen : List (EntityType × String)),
      ((deduplicate_entities_go seen l).map (fun e => (e.entity_type, e.entity_id))).Nodup ∧
      ∀ e ∈ deduplicate_entities_go seen l, (e.entity_type, e.entity_id) ∉ seen := by
  intro l
  induction l with
  | nil => intro seen; simp [deduplicate_entities_go]
  | cons x rest ih =>
    intro seen
    by_cases h : (x.entity_type, x.entity_id) ∈ seen
    · simp only [deduplicate_entities_go, if_pos h]
      exact ih seen
    · simp only [deduplicate_entities_go, if_neg h]
      obtain ⟨ihn, ihs⟩ := ih ((x.entity_type, x.entity_id) :: seen)
      refine ⟨?_, ?_⟩
      · rw [List.map_cons]
        refine List.Nodup.cons ?_ ihn
        intro hmem
        rcases List.mem_map.1 hmem with ⟨e, he, hk⟩
        exact (ihs e he) (by rw [hk]; simp)
      · intro e he
        rcases List.mem_cons.1 he with rfl | he2
        · exact h
        · intro hs
          exact (ihs e he2) (by simp [hs])

theorem dedup_find :
    ∀ (l : List SecurityEntity) (seen : List (EntityType × String)),
      ∀ e ∈ deduplicate_entities_go seen l,
        l.find? (fun y => (y.entity_type, y.entity_id) == (e.entity_type, e.entity_id)) =
          some e := by
  intro l
  induction l with
  | nil => intro seen e he; simp [deduplicate_entities_go] at he
  | cons x rest ih =>
    intro seen e he
    by_cases h : (x.entity_type, x.entity_id) ∈ seen
    · rw [deduplicate_entities_go, if_pos h] at he
      have hne : ((x.entity_type, x.entity_id) == (e.entity_type, e.entity_id)) = false := by
        rw [beq_eq_false_iff_ne]
        intro hk
        exact (dedup_keys_nodup rest seen).2 e he (by rw [← hk]; exact h)
      rw [List.find?_cons_of_neg _ (by simp [hne])]
      exact ih seen e he
    · rw [deduplicate_entities_go, if_neg h] at he
      rcases List.mem_cons.1 he with rfl | he2
      · rw [List.find?_cons_of_pos _ (by simp)]
      · have hkey := (dedup_keys_nodup rest ((x.entity_type, x.entity_id) :: seen)).2 e he2
        have hne : ((x.entity_type, x.entity_id) == (e.entity_type, e.entity_id)) = false := by
          rw [beq_eq_false_iff_ne]
          intro hk
          exact hkey (by rw [← hk]; simp)
        rw [List.find?_cons_of_neg _ (by simp [hne])]
        exact ih _ e he2

theorem filter_by_confidence_sublist (l : List SecurityEntity) :
    List.Sublist (filter_by_confidence l) l :=
  (List.take_sublist _ _).trans (List.filter_sublist _)

theorem mem_filter_by_confidence {l : List SecurityEntity} {e : SecurityEntity}
    (h : e ∈ filter_by_confidence l) :
    e ∈ l ∧ (0.3 : ℚ) ≤ effective_confidence e := by
  unfold filter_by_confidence at h
  have h2 := List.mem_of_mem_take h
  exact ⟨List.mem_of_mem_filter h2, by simpa using List.of_mem_filter h2⟩

theorem filter_by_confidence_length (l : List SecurityEntity) :
    (filter_by_confidence l).length ≤ 50 :=
  List.length_take_le _ _

theorem countP_key_eq_one {α κ : Type} [BEq κ] [LawfulBEq κ] (key : α → κ) :
    ∀ (l : List α), (l.map key).Nodup → ∀ a ∈ l,
      l.countP (fun x => key x == key a) = 1 := by
  intro l
  induction l with
  | nil => simp
  | cons x rest ih =>
    intro hnd a ha
    rw [List.map_cons, List.nodup_cons] at hnd
    rw [List.countP_cons]
    rcases List.mem_cons.1 ha with rfl | ha2
    · have hz : rest.countP (fun y => key y == key a) = 0 := by
        rw [List.countP_eq_zero]
        intro b hb hbeq
        exact hnd.1 (List.mem_map.2 ⟨b, hb, by simpa using hbeq⟩)
      simp [hz]
    · have hne : (key x == key a) = false := by
        rw [beq_eq_false_iff_ne]
        intro hk
        exact hnd.1 (List.mem_map.2 ⟨a, ha2, hk.symm⟩)
      rw [ih hnd.2 a ha2]
      simp [hne]

theorem entity_type_value_beq (x y : EntityType) :
    (entity_type_value x == entity_type_value y) = (x == y) := by
  cases x <;> cases y <;> decide


theorem expansion_result_eq (source : SecurityEntity) (a b c d : List SecurityEntity)
    (now : Int) :
    (expand_entity_connections source a b c d now).2 =
      (filter_by_confidence (deduplicate_entities (a ++ b ++ c ++ d))).map
        (fun t => { t with connections := t.connections ++ [reverse_edge source t now] }) := rfl

theorem expansion_source_connections_eq (source : SecurityEntity)
    (a b c d : List SecurityEntity) (now : Int) :
    (expand_entity_connections source a b c d now).1.connections =
      source.connections ++
        (filter_by_confidence (deduplicate_entities (a ++ b ++ c ++ d))).map
          (fun t => forward_edge t now) := rfl

theorem expansion_keys_nodup (source : SecurityEntity) (a b c d : List SecurityEntity)
    (now : Int) :
    ((expand_entity_connections source a b c d now).2.map
      (fun t => (t.entity_type, t.entity_id))).Nodup := by
  rw [expansion_result_eq, List.map_map]
  show ((filter_by_confidence (deduplicate_entities (a ++ b ++ c ++ d))).map
    (fun t => (t.entity_type, t.entity_id))).Nodup
  have hs : List.Sublist
      ((filter_by_confidence (deduplicate_entities (a ++ b ++ c ++ d))).map
        (fun t => (t.entity_type, t.entity_id)))
      ((deduplicate_entities (a ++ b ++ c ++ d)).map
        (fun t => (t.entity_type, t.entity_id))) :=
    List.Sublist.map _ (filter_by_confidence_sublist _)
  exact List.Nodup.sublist hs (dedup_keys_nodup (a ++ b ++ c ++ d) []).1

theorem forward_edge_count_one (source : SecurityEntity) (a b c d : List SecurityEntity)
    (now : Int) :
    ∀ t ∈ (expand_entity_connections source a b c d now).2,
      ((expand_entity_connections source a b c d now).2.map
        (fun t' => forward_edge t' now)).countP
        (fun conn => conn.target_type == entity_type_value t.entity_type &&
                     conn.target_id == t.entity_id) = 1 := by
  intro t ht
  rw [List.countP_map]
  have hone := countP_key_eq_one (fun x : SecurityEntity => (x.entity_type, x.entity_id))
    (expand_entity_connections source a b c d now).2
    (expansion_keys_nodup source a b c d now) t ht
  rw [← hone]
  apply List.countP_congr
  intro x _
  show ((entity_type_value x.entity_type == entity_type_value t.entity_type) &&
      (x.entity_id == t.entity_id)) = true ↔
    ((x.entity_type, x.entity_id) == (t.entity_type, t.entity_id)) = true
  rw [show ((entity_type_value x.entity_type == entity_type_value t.entity_type) &&
      (x.entity_id == t.entity_id)) =
    ((x.entity_type, x.entity_id) == (t.entity_type, t.entity_id)) from by
      rw [entity_type_value_beq]; rfl]

/-- C5.  Every `expand_entity_connections` call returns a merged list that
is deduplicated by `(entityType, entityID)`, contains only entities whose
effective confidence (metadata `confidence` if present, else the entity's
`confidence`) is at least `min_confidence_threshold = 0.3`, and has length
at most `max_entities_per_expansion = 50`; the call appends to the source
exactly one forward edge per surviving entity — carrying the
relationship's weight from the fixed table — and gives each surviving
entity exactly one paired `REVERSE_`-prefixed edge back to the source with
the same connection metadata, created in the same call. -/
theorem C5_expansion_invariants (source : SecurityEntity) (a b c d : List SecurityEntity)
    (now : Int) (r : SecurityEntity × List SecurityEntity)
    (hr : r = expand_entity_connections source a b c d now) :
    ((r.2.map (fun t => (t.entity_type, t.entity_id))).Nodup) ∧
    (∀ t ∈ r.2, (0.3 : ℚ) ≤ effective_confidence t) ∧
    (r.2.length ≤ 50) ∧
    (r.1.connections = source.connections ++ r.2.map (fun t => forward_edge t now)) ∧
    (∀ t ∈ r.2, (r.2.map (fun t' => forward_edge t' now)).countP
        (fun conn => conn.target_type == entity_type_value t.entity_type &&
                     conn.target_id == t.entity_id) = 1) ∧
    (∀ t ∈ r.2,
      t.connections.getLast? = some (reverse_edge source t now) ∧
      (reverse_edge source t now).connection_type = "REVERSE_" ++ relationship_type_of t ∧
      (reverse_edge source t now).metadata = (forward_edge t now).metadata ∧
      (forward_edge t now).metadata.weight = relationship_weight (relationship_type_of t)) := by
  subst hr
  refine ⟨expansion_keys_nodup source a b c d now, ?_, ?_, ?_,
    forward_edge_count_one source a b c d now, ?_⟩
  · intro t ht
    rw [expansion_result_eq] at ht
    rcases List.mem_map.1 ht with ⟨t0, ht0, rfl⟩
    exact (mem_filter_by_confidence ht0).2
  · rw [expansion_result_eq, List.length_map]
    exact filter_by_confidence_length _
  · rw [expansion_source_connections_eq, expansion_result_eq, List.map_map]
    rfl
  · intro t ht
    rw [expansion_result_eq] at ht
    rcases List.mem_map.1 ht with ⟨t0, ht0, rfl⟩
    refine ⟨?_, rfl, rfl, rfl⟩
    exact List.getLast?_concat _

/-- C10.  With the backend answers fixed, expansion is deterministic:
re-running `expand_entity_connections` (same answers, same clock) on the
already-expanded source yields the same merged list; and when several
method results contain the same `(entityType, entityID)` neighbour, the
survivor is the first occurrence in the fixed launch order
`asset_relationship, threat_intel, baseline_anomaly, temporal_correlation`
(`asyncio.gather` returns the method results in task order, independent of
completion timing), so it carries the first-arriving `expansionSource`
tag, and exactly one forward edge (and its one `REVERSE_` edge) is created
for that neighbour. -/
theorem C10_expansion_determinism (source : SecurityEntity) (a b c d : List SecurityEntity)
    (now : Int) (r : SecurityEntity × List SecurityEntity)
    (hr : r = expand_entity_connections source a b c d now) :
    ((expand_entity_connections r.1 a b c d now).2 = r.2) ∧
    (∀ t ∈ r.2, ∃ t₀,
      (a ++ b ++ c ++ d).find? (fun y => (y.entity_type, y.entity_id) ==
        (t.entity_type, t.entity_id)) = some t₀ ∧
      t = { t₀ with connections := t₀.connections ++ [reverse_edge source t₀ now] } ∧
      expansion_source_of t = expansion_source_of t₀) ∧
    (∀ t ∈ r.2, (r.2.map (fun t' => forward_edge t' now)).countP
        (fun conn => conn.target_type == entity_type_value t.entity_type &&
                     conn.target_id == t.entity_id) = 1) := by
  subst hr
  refine ⟨rfl, ?_, forward_edge_count_one source a b c d now⟩
  intro t ht
  rw [expansion_result_eq] at ht
  rcases List.mem_map.1 ht with ⟨t0, ht0, rfl⟩
  have hfind := dedup_find (a ++ b ++ c ++ d) [] t0 (mem_filter_by_confidence ht0).1
  exact ⟨t0, hfind, rfl, rfl⟩


/-- C5 (witness): a single asset-relationship neighbour at full confidence
survives, with the dedup, confidence and size bounds holding. -/
theorem C5_expansion_invariants_witness :
    (((expand_entity_connections { entity_type := EntityType.ip, entity_id := "10.0.0.1" }
        [{ entity_type := EntityType.device, entity_id := "host1",
           metadata := [("expansion_source", MVal.s "asset_relationship"),
                        ("relationship_type", MVal.s "BELONGS_TO")] }]
        [] [] [] 0).2.map (fun t => (t.entity_type, t.entity_id))).Nodup) ∧
    (expand_entity_connections { entity_type := EntityType.ip, entity_id := "10.0.0.1" }
        [{ entity_type := EntityType.device, entity_id := "host1",
           metadata := [("expansion_source", MVal.s "asset_relationship"),
                        ("relationship_type", MVal.s "BELONGS_TO")] }]
        [] [] [] 0).2.length ≤ 50 :=
  ⟨(C5_expansion_invariants { entity_type := EntityType.ip, entity_id := "10.0.0.1" }
      [{ entity_type := EntityType.device, entity_id := "host1",
         metadata := [("expansion_source", MVal.s "asset_relationship"),
                      ("relationship_type", MVal.s "BELONGS_TO")] }]
      [] [] [] 0 _ rfl).1,
   (C5_expansion_invariants { entity_type := EntityType.ip, entity_id := "10.0.0.1" }
      [{ entity_type := EntityType.device, entity_id := "host1",
         metadata := [("expansion_source", MVal.s "asset_relationship"),
                      ("relationship_type", MVal.s "BELONGS_TO")] }]
      [] [] [] 0 _ rfl).2.2.1⟩

/-- C10 (witness): the two-run property at the spec's dedup scenario — two
methods both return the neighbour `(IP, 192.168.1.50)`. -/
theorem C10_expansion_determinism_witness :
    (expand_entity_connections
      (expand_entity_connections { entity_type := EntityType.ip, entity_id := "10.0.0.9" }
        [{ entity_type := EntityType.ip, entity_id := "192.168.1.50",
           metadata := [("expansion_source", MVal.s "asset_relationship"),
                        ("relationship_type", MVal.s "BELONGS_TO")] }]
        [{ entity_type := EntityType.ip, entity_id := "192.168.1.50",
           metadata := [("expansion_source", MVal.s "threat_intel"),
                        ("relationship_type", MVal.s "THREAT_INTEL_RELATED")] }]
        [] [] 0).1
      [{ entity_type := EntityType.ip, entity_id := "192.168.1.50",
         metadata := [("expansion_source", MVal.s "asset_relationship"),
                      ("relationship_type", MVal.s "BELONGS_TO")] }]
      [{ entity_type := EntityType.ip, entity_id := "192.168.1.50",
         metadata := [("expansion_source", MVal.s "threat_intel"),
                      ("relationship_type", MVal.s "THREAT_INTEL_RELATED")] }]
      [] [] 0).2 =
    (expand_entity_connections { entity_type := EntityType.ip, entity_id := "10.0.0.9" }
      [{ entity_type := EntityType.ip, entity_id := "192.168.1.50",
         metadata := [("expansion_source", MVal.s "asset_relationship"),
                      ("relationship_type", MVal.s "BELONGS_TO")] }]
      [{ entity_type := EntityType.ip, entity_id := "192.168.1.50",
         metadata := [("expansion_source", MVal.s "threat_intel"),
                      ("relationship_type", MVal.s "THREAT_INTEL_RELATED")] }]
      [] [] 0).2 :=
  (C10_expansion_determinism { entity_type := EntityType.ip, entity_id := "10.0.0.9" }
    [{ entity_type := EntityType.ip, entity_id := "192.168.1.50",
       metadata := [("expansion_source", MVal.s "asset_relationship"),
                    ("relationship_type", MVal.s "BELONGS_TO")] }]
    [{ entity_type := EntityType.ip, entity_id := "192.168.1.50",
       metadata := [("expansion_source", MVal.s "threat_intel"),
                    ("relationship_type", MVal.s "THREAT_INTEL_RELATED")] }]
    [] [] 0 _ rfl).1

end SecPlatform
